import Mathlib

/-!
Verification of the dimensioned-quantities core of the
physical-modeling-utilities repository
(src/PhysicalModeling/DimensionedQuantities.h).

A dimension is a boost::mpl vector_c of 20 signed integer exponents:
8 explicit slots (Time, Mass, Length, Angle, then four reserved slots)
followed by the 12 zeros of the DQ_DIMPAD macro. We embed it as a
List Int of length 20. The binary compile-time metafunctions
multiply_dimensions and divide_dimensions are elementwise zipWith.
The square-root metafunctions of the header have no valid
instantiation: Internal::sqrt_dims is mpl::divides of a whole vector
by int_ 2, and Internal::sqrt_dimensions, written as
mpl::transform of D with int_ 2 and divides, dispatches (because
int_ 2 is not a sequence) to the unary transform1 with the divides
placeholder expression as the inserter, which is a hard compile error;
the elementwise halving the spec assigns to sqrt_dimensions is
therefore modelled from the words of the spec, under the clearly
separate name spec_sqrt_dimensions, with the truncating division of
C++ (Int.tdiv).
-/

namespace PhysicalModeling

namespace DimensionedQuantities

/-- The number of axes of a dimension vector: 8 explicit exponent slots
plus the 12 padding zeros supplied by the DQ_DIMPAD macro. -/
def numAxes : Nat := 20

/-- A dimension vector: the exponent list of an mpl::vector_c of ints. -/
abbrev Dimension : Type := List Int

/-- The DQ_DIMPAD macro: twelve trailing zero padding axes. -/
def DQ_DIMPAD : List Int := List.replicate 12 0

/-- A valid dimension vector has the fixed arity of 20 integer exponents. -/
def validDim (D : Dimension) : Prop := D.length = numAxes

namespace dims

/-- Dimensionless scalar. -/
def dimensionless : Dimension := [0, 0, 0, 0, 0, 0, 0, 0] ++ DQ_DIMPAD

/-- Time (seconds). -/
def time : Dimension := [1, 0, 0, 0, 0, 0, 0, 0] ++ DQ_DIMPAD

/-- Mass (kilograms). -/
def mass : Dimension := [0, 1, 0, 0, 0, 0, 0, 0] ++ DQ_DIMPAD

/-- Length (meters). -/
def length : Dimension := [0, 0, 1, 0, 0, 0, 0, 0] ++ DQ_DIMPAD

/-- Angle (radians). -/
def angle : Dimension := [0, 0, 0, 1, 0, 0, 0, 0] ++ DQ_DIMPAD

/-- Area (square meters). -/
def area : Dimension := [0, 0, 2, 0, 0, 0, 0, 0] ++ DQ_DIMPAD

/-- Volume (cubic meters). -/
def volume : Dimension := [0, 0, 3, 0, 0, 0, 0, 0] ++ DQ_DIMPAD

/-- Density (kg per cubic meter). -/
def density : Dimension := [0, 1, -3, 0, 0, 0, 0, 0] ++ DQ_DIMPAD

/-- Speed (m/s). -/
def speed : Dimension := [-1, 0, 1, 0, 0, 0, 0, 0] ++ DQ_DIMPAD

/-- Acceleration (m/s^2). -/
def accel : Dimension := [-2, 0, 1, 0, 0, 0, 0, 0] ++ DQ_DIMPAD

/-- Angular speed (rad/s). -/
def ang_speed : Dimension := [-1, 0, 0, 1, 0, 0, 0, 0] ++ DQ_DIMPAD

/-- Angular acceleration (rad/s^2). -/
def ang_accel : Dimension := [-2, 0, 0, 1, 0, 0, 0, 0] ++ DQ_DIMPAD

/-- Force (Newtons, kg m / s^2). -/
def force : Dimension := [-2, 1, 1, 0, 0, 0, 0, 0] ++ DQ_DIMPAD

/-- Linear stiffness, exactly as hard-coded in the header (line 212):
exponents -2, 0, 1, 0. The doc comment of the header says N/m = kg/s^2,
which would be -2, 1, 0, 0. -/
def stiffness : Dimension := [-2, 0, 1, 0, 0, 0, 0, 0] ++ DQ_DIMPAD

/-- Damping coefficient (viscosity), exactly as hard-coded in the header
(line 215): exponents -1, 0, 1, 0. The doc comment of the header says
N s/m = kg/s, which would be -1, 1, 0, 0. -/
def viscosity : Dimension := [-1, 0, 1, 0, 0, 0, 0, 0] ++ DQ_DIMPAD

/-- Torque (N m). -/
def torque : Dimension := [-2, 1, 2, 0, 0, 0, 0, 0] ++ DQ_DIMPAD

/-- Angular stiffness (N m / rad). -/
def ang_stiffness : Dimension := [-2, 1, 2, -1, 0, 0, 0, 0] ++ DQ_DIMPAD

/-- Angular damping coefficient (N m s / rad). -/
def ang_viscosity : Dimension := [-1, 1, 2, -1, 0, 0, 0, 0] ++ DQ_DIMPAD

/-- Moment of inertia (kg m^2). -/
def moment_of_inertia : Dimension := [0, 1, 2, 0, 0, 0, 0, 0] ++ DQ_DIMPAD

end dims

namespace Internal

/-- mpl::transform of two dimension vectors with mpl::plus:
elementwise sum of exponents. -/
def multiply_dimensions (D1 D2 : Dimension) : Dimension :=
  List.zipWith (· + ·) D1 D2

/-- mpl::transform of two dimension vectors with mpl::minus:
elementwise difference of exponents. -/
def divide_dimensions (D1 D2 : Dimension) : Dimension :=
  List.zipWith (· - ·) D1 D2

end Internal

/-- Modelled from the spec: sqrt_dimensions(D) is the elementwise
division of every exponent of D by 2, with the truncating integral
division of C++ (Int.tdiv). This definition follows the words of the
spec because the header computes no such thing: the metafunction
Internal::sqrt_dimensions (lines 356-359), spelled
mpl::transform of D with int_ 2 and divides of the two placeholders,
dispatches to the unary transform1 branch (int_ 2 is not a sequence),
which treats the divides placeholder expression as the inserter and
demands its nested state, so every instantiation is a hard compile
error; Internal::sqrt_dims, the one named by sqrt, is likewise
ill-formed for vector dimensions. -/
def spec_sqrt_dimensions (D : Dimension) : Dimension :=
  D.map (fun a => Int.tdiv a 2)

/-- The Quantity template: a single scalar of the Precision type, tagged
at the type level with a Dimension. The tag is a type index here, so a
value of Quantity D T can never change its dimension. -/
structure Quantity (D : Dimension) (T : Type) where
  value : T

/-- The usual constructor Quantity(Precision x). -/
def Quantity.ofValue {D : Dimension} {T : Type} (x : T) : Quantity D T :=
  ⟨x⟩

/-- The empty constructor Quantity() value-initializes the scalar member
( _value() ), which for an arithmetic Precision type yields the zero
value of that type. -/
def Quantity.default {D : Dimension} {T : Type} [Zero T] : Quantity D T :=
  ⟨0⟩

/-- The conversion constructor: accepts a quantity of another declared
dimension only together with a proof that the two dimension vectors are
equal (the BOOST_STATIC_ASSERT on mpl::equal). -/
def Quantity.convert {D1 D2 : Dimension} {T : Type} (rhs : Quantity D1 T)
    (_h : D1 = D2) : Quantity D2 T :=
  ⟨rhs.value⟩

/-- Dimension-preserving addition: defined only for two quantities of the
same dimension and precision. -/
def Quantity.add {D : Dimension} {T : Type} [Add T]
    (l r : Quantity D T) : Quantity D T :=
  ⟨l.value + r.value⟩

/-- Dimension-preserving subtraction. -/
def Quantity.sub {D : Dimension} {T : Type} [Sub T]
    (l r : Quantity D T) : Quantity D T :=
  ⟨l.value - r.value⟩

/-- The accumulation operator += : mutates the stored scalar to the sum.
Modelled as the state passed out; the result type is Quantity D T, the
same dimension tag as the input. -/
def Quantity.addAssign {D : Dimension} {T : Type} [Add T]
    (x r : Quantity D T) : Quantity D T :=
  ⟨x.value + r.value⟩

/-- The negative accumulation operator -= . -/
def Quantity.subAssign {D : Dimension} {T : Type} [Sub T]
    (x r : Quantity D T) : Quantity D T :=
  ⟨x.value - r.value⟩

/-- operator* : the result dimension is computed by
Internal::multiply_dimensions and the scalar is the product. Defined only
when both operands share the same Precision T. -/
def Quantity.mul {D1 D2 : Dimension} {T : Type} [Mul T]
    (l : Quantity D1 T) (r : Quantity D2 T) :
    Quantity (Internal.multiply_dimensions D1 D2) T :=
  ⟨l.value * r.value⟩

/-- operator/ : the result dimension is computed by
Internal::divide_dimensions and the scalar is the quotient. -/
def Quantity.div {D1 D2 : Dimension} {T : Type} [Div T]
    (l : Quantity D1 T) (r : Quantity D2 T) :
    Quantity (Internal.divide_dimensions D1 D2) T :=
  ⟨l.value / r.value⟩

/-- A dimension vector is zero-padded when every exponent in the
DQ_DIMPAD region (axes 8 and beyond) is zero. -/
def zero_padded (D : Dimension) : Bool :=
  (D.drop 8).all (· == 0)

/-- Subtracting the second operand elementwise after adding it
elementwise restores the first operand, provided the two lists have the
same length. -/
theorem zipWith_add_sub_cancel (l1 : List Int) :
    ∀ l2 : List Int, l1.length = l2.length →
      List.zipWith (· - ·) (List.zipWith (· + ·) l1 l2) l2 = l1 := by
  induction l1 with
  | nil =>
    intro l2 _
    simp
  | cons a t ih =>
    intro l2 h
    cases l2 with
    | nil => simp at h
    | cons b t2 =>
      simp only [List.zipWith_cons_cons, List.cons.injEq]
      exact ⟨add_sub_cancel_right a b, ih t2 (by simpa using h)⟩

/-- Adding the truncated half of an even exponent to itself restores the
exponent, elementwise over a whole list. -/
theorem halves_add_to_self :
    ∀ l : List Int, (∀ a ∈ l, 2 ∣ a) →
      List.zipWith (· + ·) (l.map (fun a => Int.tdiv a 2))
        (l.map (fun a => Int.tdiv a 2)) = l := by
  intro l
  induction l with
  | nil =>
    intro _
    rfl
  | cons a t ih =>
    intro h
    obtain ⟨k, hk⟩ := h a (List.mem_cons_self a t)
    simp only [List.map_cons, List.zipWith_cons_cons, List.cons.injEq]
    refine ⟨?_, ih fun b hb => h b (List.mem_cons_of_mem a hb)⟩
    rw [hk, Int.mul_tdiv_cancel_left k (by decide)]
    ring

/-- Combining two all-zero exponent lists with a pointwise operation that
sends the pair of zeros to zero yields an all-zero list. -/
theorem all_zero_zipWith (f : Int → Int → Int) (hf : f 0 0 = 0) :
    ∀ l1 l2 : List Int, l1.all (· == 0) = true → l2.all (· == 0) = true →
      (List.zipWith f l1 l2).all (· == 0) = true := by
  intro l1
  induction l1 with
  | nil =>
    intro l2 _ _
    simp
  | cons a t ih =>
    intro l2 h1 h2
    cases l2 with
    | nil => simp
    | cons b t2 =>
      simp only [List.all_cons, Bool.and_eq_true, beq_iff_eq] at h1 h2
      simp only [List.zipWith_cons_cons, List.all_cons, Bool.and_eq_true,
        beq_iff_eq]
      exact ⟨by rw [h1.1, h2.1, hf], ih t2 h1.2 h2.2⟩

/-- Mapping an all-zero exponent list with a function that fixes zero
yields an all-zero list. -/
theorem all_zero_map (f : Int → Int) (hf : f 0 = 0) :
    ∀ l : List Int, l.all (· == 0) = true →
      (l.map f).all (· == 0) = true := by
  intro l
  induction l with
  | nil =>
    intro _
    simp
  | cons a t ih =>
    intro h
    simp only [List.all_cons, Bool.and_eq_true, beq_iff_eq] at h
    simp only [List.map_cons, List.all_cons, Bool.and_eq_true, beq_iff_eq]
    exact ⟨by rw [h.1, hf], ih h.2⟩

/-- C1: the spec-required elementwise halving, applied to the area
dimension (length exponent 2), yields the length dimension: the
dimension the claim requires for sqrt at the failing input
sqrt(Quantity of dims::area). The sqrt function of the header instead
names Internal::sqrt_dims, an mpl::divides of a whole vector by int_ 2,
which is not an elementwise transform and is ill-formed for vector
dimensions, so this claim records a code bug. -/
theorem sqrt_dimensions_halves_area :
    spec_sqrt_dimensions dims.area = dims.length := by
  decide

/-- C2: the hard-coded stiffness and viscosity constants do not satisfy
their documented SI relationships: divide_dimensions(force, length)
differs from the stiffness vector, and
divide_dimensions(multiply_dimensions(force, time), length) differs from
the viscosity vector. The coded stiffness vector equals accel and the
coded viscosity vector equals speed. -/
theorem stiffness_viscosity_mismatch :
    Internal.divide_dimensions dims.force dims.length ≠ dims.stiffness ∧
    Internal.divide_dimensions
        (Internal.multiply_dimensions dims.force dims.time) dims.length
      ≠ dims.viscosity ∧
    dims.stiffness = dims.accel ∧
    dims.viscosity = dims.speed := by
  decide

/-- C3: the four stated cross-consistency equations over the named
constants hold: mass times accel is force, force times length is torque,
length over time is speed, and speed over time is accel. -/
theorem named_constants_cross_consistency :
    Internal.multiply_dimensions dims.mass dims.accel = dims.force ∧
    Internal.multiply_dimensions dims.force dims.length = dims.torque ∧
    Internal.divide_dimensions dims.length dims.time = dims.speed ∧
    Internal.divide_dimensions dims.speed dims.time = dims.accel := by
  decide

/-- C4: for valid dimension vectors D1 and D2 (arity 20),
multiply_dimensions and divide_dimensions are again valid dimension
vectors, and dividing the product by D2 restores D1. -/
theorem closure_round_trip (D1 D2 : Dimension)
    (h1 : validDim D1) (h2 : validDim D2) :
    validDim (Internal.multiply_dimensions D1 D2) ∧
    validDim (Internal.divide_dimensions D1 D2) ∧
    Internal.divide_dimensions (Internal.multiply_dimensions D1 D2) D2
      = D1 := by
  have h1l : D1.length = numAxes := h1
  have h2l : D2.length = numAxes := h2
  refine ⟨?_, ?_, ?_⟩
  · simp [validDim, Internal.multiply_dimensions, List.length_zipWith,
      h1l, h2l]
  · simp [validDim, Internal.divide_dimensions, List.length_zipWith,
      h1l, h2l]
  · exact zipWith_add_sub_cancel D1 D2 (h1l.trans h2l.symm)

/-- Witness for C4 at the concrete pair mass, accel. -/
theorem closure_round_trip_witness :
    validDim (Internal.multiply_dimensions dims.mass dims.accel) ∧
    validDim (Internal.divide_dimensions dims.mass dims.accel) ∧
    Internal.divide_dimensions
        (Internal.multiply_dimensions dims.mass dims.accel) dims.accel
      = dims.mass :=
  closure_round_trip dims.mass dims.accel rfl rfl

/-- C5: the round trip the claim asserts holds of the spec-modelled
elementwise halving: for a dimension vector with all exponents even,
multiplying the halved vector by itself restores the original vector.
The header itself cannot exhibit this property: its
Internal::sqrt_dimensions metafunction is ill-formed on every
instantiation (unary transform1 dispatch with the divides placeholder
expression as the inserter), so this claim records a code bug. -/
theorem sqrt_round_trip (D : Dimension) (h : ∀ a ∈ D, 2 ∣ a) :
    Internal.multiply_dimensions (spec_sqrt_dimensions D)
      (spec_sqrt_dimensions D) = D :=
  halves_add_to_self D h

/-- Witness for C5 at the concrete all-even vector area. -/
theorem sqrt_round_trip_witness :
    Internal.multiply_dimensions (spec_sqrt_dimensions dims.area)
      (spec_sqrt_dimensions dims.area) = dims.area :=
  sqrt_round_trip dims.area (by decide)

/-- C6: multiplication of quantities multiplies the scalars, and the
result carries the dimension Internal::multiply_dimensions D1 D2 (the
return type of Quantity.mul); concretely, mass 20 times accel 9.81 has
the force dimension and scalar 196.2. -/
theorem quantity_mul_spec {D1 D2 : Dimension} {T : Type} [Mul T]
    (l : Quantity D1 T) (r : Quantity D2 T) :
    (l.mul r).value = l.value * r.value ∧
    Internal.multiply_dimensions dims.mass dims.accel = dims.force ∧
    ((Quantity.ofValue 20 : Quantity dims.mass ℚ).mul
      (Quantity.ofValue 9.81 : Quantity dims.accel ℚ)).value = 196.2 := by
  refine ⟨rfl, by decide, ?_⟩
  show (20 : ℚ) * 9.81 = 196.2
  norm_num

/-- C7: division of quantities divides the scalars, and the result
carries the dimension Internal::divide_dimensions D1 D2 (the return type
of Quantity.div); concretely, length 10 over length 2 is dimensionless
with scalar 5. -/
theorem quantity_div_spec {D1 D2 : Dimension} {T : Type} [Div T]
    (l : Quantity D1 T) (r : Quantity D2 T) :
    (l.div r).value = l.value / r.value ∧
    Internal.divide_dimensions dims.length dims.length
      = dims.dimensionless ∧
    ((Quantity.ofValue 10 : Quantity dims.length ℚ).div
      (Quantity.ofValue 2 : Quantity dims.length ℚ)).value = 5 := by
  refine ⟨rfl, by decide, ?_⟩
  show (10 : ℚ) / 2 = 5
  norm_num

/-- C8: the accumulation operator += stores the sum of the two scalars,
and its result type Quantity D T keeps the dimension tag of x unchanged;
concretely, length 1.5 accumulated with length 2.5 stores 4. -/
theorem quantity_addAssign_spec {D : Dimension} {T : Type} [Add T]
    (x r : Quantity D T) :
    (x.addAssign r).value = x.value + r.value ∧
    ((Quantity.ofValue 1.5 : Quantity dims.length ℚ).addAssign
      (Quantity.ofValue 2.5)).value = 4 := by
  refine ⟨rfl, ?_⟩
  show (1.5 : ℚ) + 2.5 = 4
  norm_num

/-- C9: every named dimension constant is zero on all the DQ_DIMPAD
padding axes, and zero-padding is preserved by multiply_dimensions,
divide_dimensions, and the spec-modelled elementwise halving. The
sqrt_dimensions conjunct cannot hold of the header itself: its
Internal::sqrt_dimensions is ill-formed on every instantiation and
yields no vector at all, so this claim records a code bug; the
multiply_dimensions and divide_dimensions parts are faithful to the
source. -/
theorem zero_padding_invariant :
    (zero_padded dims.dimensionless ∧ zero_padded dims.time ∧
      zero_padded dims.mass ∧ zero_padded dims.length ∧
      zero_padded dims.angle ∧ zero_padded dims.area ∧
      zero_padded dims.volume ∧ zero_padded dims.density ∧
      zero_padded dims.speed ∧ zero_padded dims.accel ∧
      zero_padded dims.ang_speed ∧ zero_padded dims.ang_accel ∧
      zero_padded dims.force ∧ zero_padded dims.stiffness ∧
      zero_padded dims.viscosity ∧ zero_padded dims.torque ∧
      zero_padded dims.ang_stiffness ∧ zero_padded dims.ang_viscosity ∧
      zero_padded dims.moment_of_inertia) ∧
    (∀ D1 D2 : Dimension, zero_padded D1 → zero_padded D2 →
      zero_padded (Internal.multiply_dimensions D1 D2)) ∧
    (∀ D1 D2 : Dimension, zero_padded D1 → zero_padded D2 →
      zero_padded (Internal.divide_dimensions D1 D2)) ∧
    (∀ D : Dimension, zero_padded D →
      zero_padded (spec_sqrt_dimensions D)) := by
  refine ⟨by decide, ?_, ?_, ?_⟩
  · intro D1 D2 h1 h2
    unfold zero_padded Internal.multiply_dimensions at *
    rw [List.drop_zipWith]
    exact all_zero_zipWith _ (by decide) _ _ h1 h2
  · intro D1 D2 h1 h2
    unfold zero_padded Internal.divide_dimensions at *
    rw [List.drop_zipWith]
    exact all_zero_zipWith _ (by decide) _ _ h1 h2
  · intro D h
    unfold zero_padded spec_sqrt_dimensions at *
    rw [← List.map_drop]
    exact all_zero_map _ (by decide) _ h

/-- Witness for C9 at concrete zero-padded inputs. -/
theorem zero_padding_invariant_witness :
    zero_padded (Internal.multiply_dimensions dims.force dims.time)
      = true ∧
    zero_padded (Internal.divide_dimensions dims.force dims.length)
      = true ∧
    zero_padded (spec_sqrt_dimensions dims.area) = true :=
  ⟨zero_padding_invariant.2.1 dims.force dims.time (by decide) (by decide),
   zero_padding_invariant.2.2.1 dims.force dims.length (by decide)
     (by decide),
   zero_padding_invariant.2.2.2 dims.area (by decide)⟩

/-- C10: for every dimension vector and every Precision type with a zero,
the empty constructor value-initializes the scalar, so the stored value
is the zero of the Precision type. -/
theorem quantity_default_zero (D : Dimension) (T : Type) [Zero T] :
    (Quantity.default : Quantity D T).value = 0 :=
  rfl

end DimensionedQuantities

end PhysicalModeling
